import Mathlib

set_option maxRecDepth 16384

/-!
Verification development for the ytipfs-worker service
(source: src/ytipfs-worker/src/main.py).

The service downloads a media artifact from a URL with yt-dlp, optionally
re-encodes it for mobile compatibility with ffmpeg, uploads ("pins") it to
Pinata, and returns the content identifier.  External effects (yt-dlp,
ffprobe, ffmpeg, the filesystem, the Pinata HTTP call, the wall clock) are
modelled as explicit inputs; Python exceptions are modelled as `Except`
values carrying the `(status_code, detail)` pair of `fastapi.HTTPException`
or the raw message string of other exceptions.
-/

deriving instance DecidableEq for Except

namespace YtIpfs

/-! ### Strings: the Python `in` substring operator and `str.lower` -/

/-- Substring occurrence on character lists: `true` iff `pat` occurs as a
contiguous run inside the list.  Models the Python `in` operator on strings. -/
def containsSubAux (pat : List Char) : List Char → Bool
  | [] => pat.isEmpty
  | c :: cs => pat.isPrefixOf (c :: cs) || containsSubAux pat cs

/-- Python `pat in s` substring test. -/
def strContains (s pat : String) : Bool := containsSubAux pat.data s.data

/-- Python `str.lower()`, modelled character-wise over the ASCII range. -/
def pyLower (s : String) : String := ⟨s.data.map Char.toLower⟩

theorem containsSubAux_iff (pat l : List Char) :
    containsSubAux pat l = true ↔ pat <:+: l := by
  induction l with
  | nil =>
    simp [containsSubAux, List.isEmpty_iff]
  | cons c cs ih =>
    simp [containsSubAux, ih, List.infix_cons_iff, List.isPrefixOf_iff_prefix]

theorem strContains_append_middle (a x b : String) :
    strContains (a ++ x ++ b) x = true := by
  rw [strContains, containsSubAux_iff]
  exact ⟨a.data, b.data, by simp⟩

/-! ### Error classifier

The `except Exception` handler of `_download_video` (main.py lines 391-422)
lower-cases the stringified exception and maps it to an HTTP error by
substring matching, in a fixed order of branches. -/

/-- Status code plus detail string: models `fastapi.HTTPException(status_code,
detail)`; `str()` of such an exception is `"{status_code}: {detail}"`. -/
abbrev PyExc := Nat × String

/-- Keyword list of the first branch of the handler (main.py line 395). -/
def authKeywords : List String := ["login", "rate limit", "429", "authentication", "private"]

/-- Detail used when cookies are enabled but not valid (main.py line 399). -/
def msgAuthInvalid : String :=
  "Instagram rate limit reached or authentication required. Please update your Instagram cookies for better reliability."

/-- Detail used otherwise in the first branch (main.py line 404). -/
def msgAuthAbsent : String :=
  "Instagram rate limit reached or login required. Please try again later."

/-- Detail of the 404 branch (main.py line 409). -/
def msgNotFound : String :=
  "The requested Instagram content was not found or is unavailable."

/-- Detail of the 403 branch (main.py line 414). -/
def msgPrivate : String :=
  "This Instagram content is private and cannot be downloaded."

/-- The error classification performed by the `except` handler of
`_download_video` (main.py lines 391-422).  `s` is `str(e)` for the caught
exception; the two booleans are the cookie manager's `cookies_enabled` and
`cookies_valid` attributes at classification time. -/
def classifyStr (s : String) (cookiesEnabled cookiesValid : Bool) : PyExc :=
  let m := pyLower s
  if authKeywords.any (fun k => strContains m k) then
    if cookiesEnabled && !cookiesValid then
      (503, msgAuthInvalid)
    else
      (503, msgAuthAbsent)
  else if strContains m "unavailable" || strContains m "not found" then
    (404, msgNotFound)
  else if strContains m "private" then
    (403, msgPrivate)
  else
    (500, "Download failed: " ++ s)

/-- Classification written from the specification words (spec §4.4):
classify by first matching keyword group in fixed precedence order —
(1) authentication / rate-limit / login / private-access indicators give
`AuthOrRateLimited` (503) with a message depending on whether credentials
are configured-but-invalid versus absent; (2) unavailable / not-found
indicators give `NotFound` (404); (3) explicit privacy indicators give
`Forbidden` (403); (4) anything else gives `Unknown` (500) with the
original message attached. -/
def classifySpec (s : String) (credsEnabled credsValid : Bool) : PyExc :=
  let m := pyLower s
  if strContains m "login" || strContains m "rate limit" || strContains m "429" ||
      strContains m "authentication" || strContains m "private" then
    (503, if credsEnabled && !credsValid then msgAuthInvalid else msgAuthAbsent)
  else if strContains m "unavailable" || strContains m "not found" then
    (404, msgNotFound)
  else if strContains m "private" then
    (403, msgPrivate)
  else
    (500, "Download failed: " ++ s)

theorem authKeywords_any (m : String) :
    authKeywords.any (fun k => strContains m k) =
      (strContains m "login" || strContains m "rate limit" || strContains m "429" ||
        strContains m "authentication" || strContains m "private") := by
  simp [authKeywords, Bool.or_assoc]

/-- The classifier only ever produces the status codes 503, 404, 403, 500. -/
theorem classifyStr_status (s : String) (en va : Bool) :
    (classifyStr s en va).1 = 503 ∨ (classifyStr s en va).1 = 404 ∨
      (classifyStr s en va).1 = 403 ∨ (classifyStr s en va).1 = 500 := by
  simp only [classifyStr]
  cases h1 : authKeywords.any (fun k => strContains (pyLower s) k) <;>
    cases h2 : (strContains (pyLower s) "unavailable" || strContains (pyLower s) "not found") <;>
      cases h3 : strContains (pyLower s) "private" <;>
        cases h4 : (en && !va) <;>
          simp [h1, h2, h3, h4]

/-! ### Paths and the local filesystem

`pathlib.Path` values are modelled by stem and extension; the download
directory is implicit (all modelled paths live in it).  The filesystem is a
list of (path, byte size) pairs, ordered most-recently-modified first (this
order stands in for the `st_mtime` sort used by the glob fallback). -/

structure MPath where
  stem : String
  ext : String
  deriving DecidableEq

def MPath.name (p : MPath) : String := p.stem ++ p.ext

/-- `Path.with_suffix`. -/
def MPath.withExt (p : MPath) (e : String) : MPath := ⟨p.stem, e⟩

abbrev FS := List (MPath × Nat)

def fsExists (fs : FS) (p : MPath) : Bool := fs.any (fun e => decide (e.1 = p))

def fsSize (fs : FS) (p : MPath) : Nat :=
  ((fs.find? (fun e => decide (e.1 = p))).map Prod.snd).getD 0

def fsErase (fs : FS) (p : MPath) : FS := fs.filter (fun e => decide (¬ e.1 = p))

def fsInsert (fs : FS) (p : MPath) (n : Nat) : FS := (p, n) :: fsErase fs p

/-- `DOWNLOAD_DIR.glob(f"*{vid}*")` sorted most-recently-modified first
(main.py lines 361-365): the files whose name contains the identifier. -/
def fsGlob (fs : FS) (pat : String) : List MPath :=
  (fs.filter (fun e => strContains e.1.name pat)).map Prod.fst

/-! ### Conversion decision engine (`_needs_h264_conversion`, `_convert_media`) -/

inductive MediaKind
  | video
  | image
  deriving DecidableEq

/-- Mobile-incompatible codec set (main.py line 277). -/
def incompatibleCodecs : List String := ["vp9", "vp8", "av1", "hevc"]

/-- Mobile-compatible codec set (main.py line 280). -/
def compatibleCodecs : List String := ["h264", "avc"]

/-- The stream loop of `_needs_h264_conversion` (main.py lines 274-285): the
first stream whose codec is recognized decides; if no stream decides, the
default is `true` (conversion needed). -/
def needsLoop : List String → Bool
  | [] => true
  | c :: rest =>
    let cn := pyLower c
    if incompatibleCodecs.contains cn then true
    else if compatibleCodecs.contains cn then false
    else needsLoop rest

/-- `_needs_h264_conversion` (main.py lines 264-288).  The probe argument is
the outcome of the ffprobe call: `.error` for any exception (subprocess
failure, JSON parse error), `.ok` with the `codec_name` of each returned
stream. -/
def needsH264Conversion (probe : Except Unit (List String)) : Bool :=
  match probe with
  | .error _ => true
  | .ok streams => needsLoop streams

/-- Modelled from `mimetypes.guess_type`: extensions whose guessed MIME type
begins with "image" (main.py lines 383-387 classify by this test). -/
def imageExts : List String :=
  [".jpg", ".jpeg", ".png", ".gif", ".bmp", ".webp", ".tif", ".tiff", ".ico"]

def guessIsImage (ext : String) : Bool := imageExts.contains (pyLower ext)

/-- Environment of one `_download_video` call: outcomes of the external
calls it makes. -/
structure ExtractInfo where
  vid : String
  prepared : MPath
  deriving DecidableEq

structure DEnv where
  /-- `ydl.extract_info`: `.error msg` models a raised extractor exception
  with `str(e) = msg`; `.ok none` models a `None` result. -/
  extractResult : Except String (Option ExtractInfo)
  /-- outcome of the ffprobe call in `_needs_h264_conversion`. -/
  probe : Except Unit (List String)
  /-- outcome of the ffmpeg call in `_convert_media`; `.error` carries stderr. -/
  ffmpeg : Except String Unit
  /-- byte size of the file ffmpeg writes on success. -/
  convertedSize : Nat

/-- `_convert_media` (main.py lines 291-339).  Returns the resulting path,
whether ffmpeg ran, and the updated filesystem; `.error` models the raised
`HTTPException(500, ...)` on tool failure. -/
def convertMedia (env : DEnv) (p : MPath) (kind : MediaKind) (fs : FS) :
    Except PyExc (MPath × Bool) × FS :=
  let suffix := pyLower p.ext
  match kind with
  | .video =>
    let needs := (suffix != ".mp4") || needsH264Conversion env.probe
    if needs then
      let outP := if suffix != ".mp4" then p.withExt ".mp4"
                  else ⟨p.stem ++ "_h264", ".mp4"⟩
      match env.ffmpeg with
      | .ok _ =>
        let fs1 := fsInsert fs outP env.convertedSize
        let fs2 := if outP ≠ p then fsErase fs1 p else fs1
        (.ok (outP, true), fs2)
      | .error stderr =>
        (.error (500, "Video conversion failed: " ++ stderr), fs)
    else
      (.ok (p, false), fs)
  | .image =>
    if !([".jpg", ".jpeg"].contains suffix) then
      match env.ffmpeg with
      | .ok _ =>
        let outP := p.withExt ".jpg"
        (.ok (outP, true), fsErase (fsInsert fs outP env.convertedSize) p)
      | .error stderr =>
        (.error (500, "Image conversion failed: " ++ stderr), fs)
    else
      (.ok (p, false), fs)

/-! ### `_download_video` (main.py lines 342-422) -/

/-- An exception inside the try-block of `_download_video`: either an
`HTTPException` raised by the function itself, or a plain exception from
the extractor. -/
inductive RawErr
  | http (e : PyExc)
  | plain (msg : String)
  deriving DecidableEq

/-- Python `str(e)`: Starlette formats `HTTPException` as
`"{status_code}: {detail}"`; other exceptions carry their message. -/
def strOfRaw : RawErr → String
  | .http e => toString e.1 ++ ": " ++ e.2
  | .plain m => m

/-- Python `f"{size_mb:.1f}"` for the size in MB, modelled by exact decimal
truncation to one digit (Python rounds the final digit; no claim depends on
that digit). -/
def fmt1 (bytes : Nat) : String :=
  let t := bytes * 10 / 1048576
  toString (t / 10) ++ "." ++ toString (t % 10)

/-- Detail string of the 413 raise (main.py line 379). -/
def tooLargeDetail (bytes maxMB : Nat) : String :=
  "File too large (" ++ fmt1 bytes ++ " MB > " ++ toString maxMB ++ " MB)"

/-- Artifact resolution (main.py lines 354-369): the extractor's predicted
output path, the `.mp4` sibling when merging changed the container, then
the glob fallback over the download directory; no match raises the internal
`HTTPException(500, "Downloaded file not found")`. -/
def resolveArtifact (info : ExtractInfo) (fs : FS) : Except RawErr MPath :=
  let out0 := info.prepared
  let out1 := if pyLower out0.ext != ".mp4" && fsExists fs (out0.withExt ".mp4")
              then out0.withExt ".mp4" else out0
  if fsExists fs out1 then .ok out1
  else
    match fsGlob fs info.vid with
    | [] => .error (.http (500, "Downloaded file not found"))
    | c :: _ => .ok c

/-- The try-block of `_download_video` (main.py lines 348-389).  The float
comparison `size_mb > MAX_FILE_MB` is exact for sizes below 2^53 bytes and
equals `bytes > maxMB * 1048576`. -/
def downloadVideoBody (env : DEnv) (fs : FS) (maxMB : Nat) :
    Except RawErr MPath × FS :=
  match env.extractResult with
  | .error m => (.error (.plain m), fs)
  | .ok none => (.error (.http (400, "yt-dlp failed to extract info")), fs)
  | .ok (some info) =>
    match resolveArtifact info fs with
    | .error e => (.error e, fs)
    | .ok out2 =>
      let bytes := fsSize fs out2
      if bytes > maxMB * 1048576 then
        (.error (.http (413, tooLargeDetail bytes maxMB)), fsErase fs out2)
      else
        let kind := if guessIsImage out2.ext then MediaKind.image else MediaKind.video
        match convertMedia env out2 kind fs with
        | (.ok pr, fs1) => (.ok pr.1, fs1)
        | (.error e, fs1) => (.error (.http e), fs1)

/-- `_download_video` (main.py lines 342-422): the try-block wrapped by the
`except Exception` handler, which catches every exception — including the
`HTTPException`s the function itself raised — and re-raises the classified
error.  `cEnabled` / `cValid` are the global cookie manager's flags at
classification time. -/
def downloadVideo (env : DEnv) (fs : FS) (maxMB : Nat) (cEnabled cValid : Bool) :
    Except PyExc MPath × FS :=
  match downloadVideoBody env fs maxMB with
  | (.ok p, fs1) => (.ok p, fs1)
  | (.error e, fs1) => (.error (classifyStr (strOfRaw e) cEnabled cValid), fs1)

/-! ### `_pin_to_pinata` and `download_post` (main.py lines 238-262, 524-599) -/

inductive Ev
  | started
  | completed
  | failed
  deriving DecidableEq

/-- Outcome of the request handler: a success response (carrying the content
identifier), a raised `HTTPException`, or an exception raised by an audit
logging call itself. -/
inductive POut
  | ok (cid : String)
  | err (e : PyExc)
  | logFail
  deriving DecidableEq

structure PostEnv where
  denv : DEnv
  cEnabled : Bool
  cValid : Bool
  maxMB : Nat
  /-- `PINATA_JWT` is non-empty. -/
  jwtConfigured : Bool
  /-- HTTP status of the Pinata response. -/
  pinStatus : Nat
  /-- `resp.text`, reported on pinning failure. -/
  pinBody : String
  /-- `IpfsHash` of the Pinata response on success. -/
  pinCid : String
  /-- `KEEP_FILES`. -/
  keepFiles : Bool
  /-- whether each `log_download_event` call returns normally (false = raises). -/
  startedLogOk : Bool
  completedLogOk : Bool
  failedLogOk : Bool

structure PostResult where
  outcome : POut
  fs : FS
  events : List Ev
  /-- whether an HTTP request to the pinning service was issued. -/
  pinCalled : Bool
  deriving DecidableEq

/-- `_pin_to_pinata` (main.py lines 238-262), collapsed to its error
contract: missing JWT raises 500 before any request; a response status of
400 or above raises 502 carrying the upstream body. -/
def pinToPinata (env : PostEnv) : Except PyExc String :=
  if !env.jwtConfigured then .error (500, "PINATA_JWT not configured")
  else if env.pinStatus ≥ 400 then .error (502, "Pinata error: " ++ env.pinBody)
  else .ok env.pinCid

/-- `download_post` (main.py lines 524-599).  Python control flow modelled
exactly: the `started` log runs before the try; the local `file_path` is
assigned only if `_download_video` returns, so on its failure the
finally-block's `file_path.unlink` raises `UnboundLocalError`, which the
surrounding `except Exception: pass`-style guard swallows — no file is
removed on that path.  A failing log call inside the try is caught by the
handler (which then logs a `failed` event and re-raises the logging error);
the finally-block always runs. -/
def downloadPost (env : PostEnv) (fs : FS) : PostResult :=
  if !env.startedLogOk then
    ⟨.logFail, fs, [], false⟩
  else
    let evs0 := [Ev.started]
    match downloadVideo env.denv fs env.maxMB env.cEnabled env.cValid with
    | (.error e, fs1) =>
      if env.failedLogOk then
        ⟨.err e, fs1, evs0 ++ [Ev.failed], false⟩
      else
        ⟨.logFail, fs1, evs0, false⟩
    | (.ok fp, fs1) =>
      let cleanup := fun (f : FS) => if env.keepFiles then f else fsErase f fp
      match pinToPinata env with
      | .error e =>
        if env.failedLogOk then
          ⟨.err e, cleanup fs1, evs0 ++ [Ev.failed], env.jwtConfigured⟩
        else
          ⟨.logFail, cleanup fs1, evs0, env.jwtConfigured⟩
      | .ok cid =>
        if env.completedLogOk then
          ⟨.ok cid, cleanup fs1, evs0 ++ [Ev.completed], true⟩
        else if env.failedLogOk then
          ⟨.logFail, cleanup fs1, evs0 ++ [Ev.failed], true⟩
        else
          ⟨.logFail, cleanup fs1, evs0, true⟩

/-! ### Base64url slug decoding (`_b64url_decode`, main.py lines 231-235)

`base64.urlsafe_b64decode(s)` translates `-` to `+` and `_` to `/` and then
calls `base64.b64decode` with its default `validate=False`, i.e.
`binascii.a2b_base64` in non-strict mode.  That decoder is a character
state machine: data characters feed 6-bit values into a quad accumulator
(`quadPos` 0-3 with pending high bits in `leftchar`); characters outside
the alphabet are discarded; `=` is ignored while fewer than two data
characters of the current quad are pending, and finishes the decode once
the pending quad is completed by enough padding; data characters left over
at the end of input (`quadPos` nonzero) raise `binascii.Error`, which the
slug endpoint maps to HTTP 400. -/

def b64Alphabet : List Char :=
  "ABCDEFGHIJKLMNOPQRSTUVWXYZabcdefghijklmnopqrstuvwxyz0123456789-_".data

def b64Char (n : Nat) : Char := b64Alphabet.getD n 'A'

/-- The decode table seen after the urlsafe translation: the standard
base64 table, with `-` and `_` arriving as `+` and `/`. -/
def b64DecTable (c : Char) : Option Nat :=
  if 'A' ≤ c ∧ c ≤ 'Z' then some (c.toNat - 65)
  else if 'a' ≤ c ∧ c ≤ 'z' then some (c.toNat - 97 + 26)
  else if '0' ≤ c ∧ c ≤ '9' then some (c.toNat - 48 + 52)
  else if c = '-' ∨ c = '+' then some 62
  else if c = '_' ∨ c = '/' then some 63
  else none

/-- Base64url encoding of a byte sequence (bytes are naturals below 256). -/
def b64encode : List Nat → List Char
  | [] => []
  | [b1] => [b64Char (b1 / 4), b64Char (b1 % 4 * 16), '=', '=']
  | [b1, b2] => [b64Char (b1 / 4), b64Char (b1 % 4 * 16 + b2 / 16),
      b64Char (b2 % 16 * 4), '=']
  | b1 :: b2 :: b3 :: rest =>
    b64Char (b1 / 4) :: b64Char (b1 % 4 * 16 + b2 / 16) ::
      b64Char (b2 % 16 * 4 + b3 / 64) :: b64Char (b3 % 64) :: b64encode rest

/-- `binascii.a2b_base64` in non-strict mode (the `base64.b64decode`
default): non-alphabet characters are discarded; `=` below quad position 2
is ignored, and at quad position 2 or 3 it counts toward completing the
quad, finishing the decode when position plus pads reaches 4; a data
character resets the pad count and advances the quad accumulator; input
ending at a nonzero quad position is an error (`none`). -/
def a2bBase64 (quadPos leftchar pads : Nat) : List Char → Option (List Nat)
  | [] => if quadPos = 0 then some [] else none
  | c :: cs =>
    if c = '=' then
      if 2 ≤ quadPos then
        if 4 ≤ quadPos + pads + 1 then some []
        else a2bBase64 quadPos leftchar (pads + 1) cs
      else a2bBase64 quadPos leftchar pads cs
    else
      match b64DecTable c with
      | none => a2bBase64 quadPos leftchar pads cs
      | some v =>
        match quadPos with
        | 0 => a2bBase64 1 v 0 cs
        | 1 => (a2bBase64 2 (v % 16) 0 cs).map fun r => (leftchar * 4 + v / 16) :: r
        | 2 => (a2bBase64 3 (v % 4) 0 cs).map fun r => (leftchar * 16 + v / 4) :: r
        | _ => (a2bBase64 0 0 0 cs).map fun r => (leftchar * 64 + v) :: r

/-- `_b64url_decode` (main.py lines 231-235): pad the slug back to a
multiple-of-four length with `=`, then decode. -/
def b64urlDecode (s : List Char) : Option (List Nat) :=
  let rem := s.length % 4
  let padded := if rem = 0 then s else s ++ List.replicate (4 - rem) '='
  a2bBase64 0 0 0 padded

/-- The decode step of the `/d/{b64url}` endpoint (main.py lines 602-608):
any decoding exception becomes HTTP 400 "Malformed base64url slug". -/
def slugDecode (s : List Char) : Except PyExc (List Nat) :=
  match b64urlDecode s with
  | some bytes => .ok bytes
  | none => .error (400, "Malformed base64url slug")

/-! ### Cookie manager (`CookieManager`, main.py lines 85-202)

The cookie file is modelled as `Option String` (its content when present);
times are naturals (seconds, monotone clock); the probe against Instagram
is `.ok b` for a normal return with info truthiness `b`, `.error ()` for a
raised exception. -/

structure CMState where
  cookiesValid : Bool
  lastValidation : Option Nat
  deriving DecidableEq

/-- Python `str.strip()` over ASCII whitespace. -/
def isSpaceChar (c : Char) : Bool := c = ' ' || c = '\t' || c = '\n' || c = '\r'

def pyStrip (s : String) : String :=
  ⟨((s.data.dropWhile isSpaceChar).reverse.dropWhile isSpaceChar).reverse⟩

/-- `cookies_exist` (main.py lines 115-122): the file exists, its stripped
content is non-empty and is not the placeholder sample. -/
def cookiesExist (cf : Option String) : Bool :=
  match cf with
  | none => false
  | some content =>
    let c := pyStrip content
    !(c == "") && !(strContains c "your_session_id_here")

/-- `validate_cookies` (main.py lines 124-152).  Every failure — disabled,
missing file, probe exception, falsy probe result — is absorbed: the
validity flag is set to false and `false` is returned; nothing is raised,
which the model reflects by returning a plain pair rather than `Except`. -/
def validateCookies (enabled : Bool) (cf : Option String)
    (probe : Except Unit Bool) (now : Nat) (st : CMState) : CMState × Bool :=
  if !enabled || !cookiesExist cf then
    ({ st with cookiesValid := false }, false)
  else
    match probe with
    | .ok true => (⟨true, some now⟩, true)
    | .ok false => ({ st with cookiesValid := false }, false)
    | .error _ => ({ st with cookiesValid := false }, false)

/-- `should_validate` (main.py lines 154-160). -/
def shouldValidate (st : CMState) (now intrvl : Nat) : Bool :=
  match st.lastValidation with
  | none => true
  | some t => now - t > intrvl

/-- The static part of the yt-dlp options record (main.py lines 164-176). -/
structure YdlOpts where
  format : String
  outtmpl : String
  noplaylist : Bool
  mergeOutputFormat : String
  concurrentFragmentDownloads : Nat
  retries : Nat
  nopart : Bool
  restrictfilenames : Bool
  ignoreerrors : Bool
  quiet : Bool
  noWarnings : Bool
  cookiefile : Option String
  deriving DecidableEq

def defaultYdlFormat : String :=
  "bv*[vcodec^=avc]+ba/bv*[vcodec^=h264]+ba/bv*+ba/bestvideo+bestaudio/best"

def outputTemplate : String := "%(title).80s-%(id)s.%(ext)s"

def cookiesPathStr : String := "/data/instagram_cookies.txt"

def baseOpts : YdlOpts :=
  { format := defaultYdlFormat
    outtmpl := "/data/" ++ outputTemplate
    noplaylist := true
    mergeOutputFormat := "mp4"
    concurrentFragmentDownloads := 4
    retries := 5
    nopart := true
    restrictfilenames := true
    ignoreerrors := false
    quiet := true
    noWarnings := true
    cookiefile := none }

/-- The placeholder cookie file written by `_create_sample_cookies_file`
(main.py lines 94-113), condensed to its load-bearing lines: the embedded
usage instructions and the `your_session_id_here` marker that
`cookies_exist` uses to recognize the sample. -/
def sampleCookiesContent : String :=
  "# Instagram Cookie File for yt-dlp\n# This is a Netscape HTTP Cookie File format\n# To get your cookies:\n# 1. Install a cookie export browser extension\n# 2. Go to instagram.com and login\n# 3. Download cookies.txt and replace this file\n#\n# Example format:\n# .instagram.com\tTRUE\t/\tFALSE\t1234567890\tsessionid\tyour_session_id_here\n\n# Netscape HTTP Cookie File\n"

/-- `get_download_options` (main.py lines 162-192).  Returns the new cookie
manager state, the cookie file content after the call (a sample file is
synthesized when cookies are enabled but absent), the options record, and
whether the validation probe was executed (instrumentation for the
revalidation-cadence property). -/
def getDownloadOptions (enabled : Bool) (cf : Option String)
    (probe : Except Unit Bool) (now intrvl : Nat) (st : CMState) :
    CMState × Option String × YdlOpts × Bool :=
  if enabled && cookiesExist cf then
    if shouldValidate st now intrvl then
      let st1 := (validateCookies enabled cf probe now st).1
      if st1.cookiesValid then
        (st1, cf, { baseOpts with cookiefile := some cookiesPathStr }, true)
      else
        (st1, cf, baseOpts, true)
    else
      if st.cookiesValid then
        (st, cf, { baseOpts with cookiefile := some cookiesPathStr }, false)
      else
        (st, cf, baseOpts, false)
  else if enabled && !cookiesExist cf then
    (st, some sampleCookiesContent, baseOpts, false)
  else
    (st, cf, baseOpts, false)

/-- One request against the cookie manager: the event is (time, probe
outcome); returns the new state and whether the validation probe ran. -/
def traceStep (enabled : Bool) (cf : Option String) (intrvl : Nat)
    (st : CMState) (ev : Nat × Bool) : CMState × Bool :=
  let r := getDownloadOptions enabled cf (if ev.2 then .ok true else .error ()) ev.1 intrvl st
  (r.1, r.2.2.2)

/-- The validation probes executed over a sequence of requests (each
request calls `get_download_options`; no forced validation). -/
def traceProbes (enabled : Bool) (cf : Option String) (intrvl : Nat) :
    CMState → List (Nat × Bool) → List (Nat × Bool)
  | _, [] => []
  | st, ev :: rest =>
    let s := traceStep enabled cf intrvl st ev
    if s.2 then ev :: traceProbes enabled cf intrvl s.1 rest
    else traceProbes enabled cf intrvl s.1 rest

/-! ### Helper lemmas -/

theorem fsExists_fsErase (fs : FS) (p : MPath) : fsExists (fsErase fs p) p = false := by
  induction fs with
  | nil => rfl
  | cons e rest ih =>
    by_cases h : e.1 = p
    · simp [fsErase, fsExists, h, ih]
    · simp [fsErase, fsExists, h, ih]

/-- An occurrence of an all-lowercase pattern survives `str.lower()`. -/
theorem strContains_pyLower (s pat : String)
    (hpat : pat.data.map Char.toLower = pat.data)
    (h : strContains s pat = true) : strContains (pyLower s) pat = true := by
  rw [strContains, containsSubAux_iff] at h ⊢
  have hmap := h.map Char.toLower
  rwa [hpat] at hmap

theorem strContains_private_of_any_eq_false (m : String)
    (h : authKeywords.any (fun k => strContains m k) = false) :
    strContains m "private" = false := by
  rw [authKeywords_any] at h
  simp only [Bool.or_eq_false_iff] at h
  exact h.2

theorem compat_not_incompat (s : String) (h : compatibleCodecs.contains s = true) :
    incompatibleCodecs.contains s = false := by
  have hm : s ∈ compatibleCodecs := by simpa using h
  simp only [compatibleCodecs, List.mem_cons, List.mem_singleton, List.not_mem_nil,
    or_false] at hm
  rcases hm with h1 | h1 <;> subst h1 <;> decide

/-- The resulting artifact path of a `_convert_media` call, when it returns. -/
def convOut : Except PyExc (MPath × Bool) × FS → Option MPath
  | (.ok pr, _) => some pr.1
  | _ => none

/-- Whether a `_convert_media` call ran ffmpeg and returned. -/
def convRan : Except PyExc (MPath × Bool) × FS → Bool
  | (.ok pr, _) => pr.2
  | _ => false

theorem traceStep_ran_iff (enabled : Bool) (cf : Option String) (intrvl : Nat)
    (st : CMState) (ev : Nat × Bool) :
    (traceStep enabled cf intrvl st ev).2 =
      (enabled && cookiesExist cf && shouldValidate st ev.1 intrvl) := by
  cases hen : enabled <;> cases hex : cookiesExist cf <;>
    cases hsv : shouldValidate st ev.1 intrvl <;>
      simp [traceStep, getDownloadOptions, hen, hex, hsv,
        apply_ite (fun r : CMState × Option String × YdlOpts × Bool => r.2.2.2)]

theorem traceStep_not_ran (enabled : Bool) (cf : Option String) (intrvl : Nat)
    (st : CMState) (ev : Nat × Bool)
    (h : (traceStep enabled cf intrvl st ev).2 = false) :
    (traceStep enabled cf intrvl st ev).1 = st := by
  rw [traceStep_ran_iff] at h
  cases hen : enabled <;> cases hex : cookiesExist cf <;>
    cases hsv : shouldValidate st ev.1 intrvl <;>
      rw [hen, hex, hsv] at h <;> simp at h <;>
        simp [traceStep, getDownloadOptions, hen, hex, hsv,
          apply_ite (fun r : CMState × Option String × YdlOpts × Bool => r.1)]

theorem traceStep_gap (enabled : Bool) (cf : Option String) (intrvl : Nat)
    (st : CMState) (ev : Nat × Bool) (t0 : Nat)
    (hlast : st.lastValidation = some t0)
    (h : (traceStep enabled cf intrvl st ev).2 = true) :
    intrvl < ev.1 - t0 := by
  rw [traceStep_ran_iff] at h
  have hsv : shouldValidate st ev.1 intrvl = true := by
    cases hx : shouldValidate st ev.1 intrvl
    · rw [hx] at h
      simp at h
    · rfl
  simp only [shouldValidate, hlast, decide_eq_true_eq] at hsv
  exact hsv

theorem traceStep_success (enabled : Bool) (cf : Option String) (intrvl : Nat)
    (st : CMState) (ev : Nat × Bool)
    (h : (traceStep enabled cf intrvl st ev).2 = true) (hok : ev.2 = true) :
    (traceStep enabled cf intrvl st ev).1.lastValidation = some ev.1 := by
  rw [traceStep_ran_iff] at h
  have hen : enabled = true := by
    cases hx : enabled
    · rw [hx] at h
      simp at h
    · rfl
  have hex : cookiesExist cf = true := by
    cases hx : cookiesExist cf
    · rw [hx] at h
      simp at h
    · rfl
  have hsv : shouldValidate st ev.1 intrvl = true := by
    cases hx : shouldValidate st ev.1 intrvl
    · rw [hx] at h
      simp at h
    · rfl
  have hval : validateCookies true cf (if ev.2 then .ok true else .error ()) ev.1 st =
      (⟨true, some ev.1⟩, true) := by
    simp [validateCookies, hex, hok]
  simp [traceStep, getDownloadOptions, hen, hex, hsv, hval]

theorem traceStep_fail_keeps_last (enabled : Bool) (cf : Option String) (intrvl : Nat)
    (st : CMState) (ev : Nat × Bool)
    (h : (traceStep enabled cf intrvl st ev).2 = true) (hfail : ev.2 = false) :
    (traceStep enabled cf intrvl st ev).1.lastValidation = st.lastValidation := by
  rw [traceStep_ran_iff] at h
  have hen : enabled = true := by
    cases hx : enabled
    · rw [hx] at h
      simp at h
    · rfl
  have hex : cookiesExist cf = true := by
    cases hx : cookiesExist cf
    · rw [hx] at h
      simp at h
    · rfl
  have hsv : shouldValidate st ev.1 intrvl = true := by
    cases hx : shouldValidate st ev.1 intrvl
    · rw [hx] at h
      simp at h
    · rfl
  have hval : validateCookies true cf (if ev.2 then .ok true else .error ()) ev.1 st =
      ({ st with cookiesValid := false }, false) := by
    simp [validateCookies, hex, hfail]
  simp [traceStep, getDownloadOptions, hen, hex, hsv, hval]

/-- If the state records a last successful validation at `t0`, the next
executed probe over any request sequence is more than the interval after
`t0`. -/
theorem traceProbes_head_gap (enabled : Bool) (cf : Option String) (intrvl : Nat) :
    ∀ (evs : List (Nat × Bool)) (st : CMState) (t0 : Nat),
      st.lastValidation = some t0 →
      ∀ t2 b, (traceProbes enabled cf intrvl st evs).head? = some (t2, b) →
      intrvl < t2 - t0 := by
  intro evs
  induction evs with
  | nil =>
    intro st t0 _ t2 b hhead
    simp [traceProbes] at hhead
  | cons ev rest ih =>
    intro st t0 hlast t2 b hhead
    by_cases hr : (traceStep enabled cf intrvl st ev).2 = true
    · rw [traceProbes] at hhead
      simp only [hr, if_true] at hhead
      simp only [List.head?_cons, Option.some.injEq] at hhead
      have := traceStep_gap enabled cf intrvl st ev t0 hlast hr
      rw [hhead] at this
      exact this
    · rw [traceProbes] at hhead
      simp only [Bool.not_eq_true] at hr
      simp only [hr, if_false] at hhead
      have hst := traceStep_not_ran enabled cf intrvl st ev hr
      rw [hst] at hhead
      exact ih st t0 hlast t2 b hhead

/-- Adjacent executed probes where the earlier one succeeded are more than
the interval apart. -/
theorem traceProbes_adjacent_gap (enabled : Bool) (cf : Option String) (intrvl : Nat) :
    ∀ (evs : List (Nat × Bool)) (st : CMState) (pre : List (Nat × Bool))
      (t1 t2 : Nat) (b : Bool) (rest : List (Nat × Bool)),
      traceProbes enabled cf intrvl st evs = pre ++ (t1, true) :: (t2, b) :: rest →
      intrvl < t2 - t1 := by
  intro evs
  induction evs with
  | nil =>
    intro st pre t1 t2 b rest h
    rw [traceProbes] at h
    exact absurd h.symm (by simp)
  | cons ev rest2 ih =>
    intro st pre t1 t2 b rest h
    by_cases hr : (traceStep enabled cf intrvl st ev).2 = true
    · rw [traceProbes] at h
      simp only [hr, if_true] at h
      cases pre with
      | nil =>
        simp only [List.nil_append, List.cons.injEq] at h
        obtain ⟨hev, htail⟩ := h
        have hok : ev.2 = true := by rw [hev]
        have ht1 : ev.1 = t1 := by rw [hev]
        have hsucc := traceStep_success enabled cf intrvl st ev hr hok
        rw [ht1] at hsucc
        exact traceProbes_head_gap enabled cf intrvl rest2
          (traceStep enabled cf intrvl st ev).1 t1 hsucc t2 b (by rw [htail]; rfl)
      | cons p pre2 =>
        simp only [List.cons_append, List.cons.injEq] at h
        exact ih (traceStep enabled cf intrvl st ev).1 pre2 t1 t2 b rest h.2
    · rw [traceProbes] at h
      simp only [Bool.not_eq_true] at hr
      simp only [hr, if_false] at h
      rw [traceStep_not_ran enabled cf intrvl st ev hr] at h
      exact ih st pre t1 t2 b rest h

theorem b64DecTable_b64Char : ∀ n, n < 64 → b64DecTable (b64Char n) = some n := by decide

theorem b64Char_ne_pad : ∀ n, n < 64 → b64Char n ≠ '=' := by decide

theorem b64DecTable_pad : b64DecTable '=' = none := by decide

theorem b64encode_length_mod : ∀ (k : Nat) (l : List Nat), l.length ≤ k →
    (b64encode l).length % 4 = 0 := by
  intro k
  induction k with
  | zero =>
    intro l hl
    rw [Nat.le_zero, List.length_eq_zero] at hl
    subst hl
    rfl
  | succ k ih =>
    intro l hl
    match l with
    | [] => rfl
    | [b1] => simp [b64encode]
    | [b1, b2] => simp [b64encode]
    | b1 :: b2 :: b3 :: rest =>
      have hr : (b64encode rest).length % 4 = 0 := by
        refine ih rest ?_
        simp only [List.length_cons] at hl
        omega
      simp only [b64encode, List.length_cons]
      omega

theorem a2b_b64encode : ∀ (k : Nat) (l : List Nat), l.length ≤ k →
    (∀ b ∈ l, b < 256) → a2bBase64 0 0 0 (b64encode l) = some l := by
  intro k
  induction k with
  | zero =>
    intro l hl _
    rw [Nat.le_zero, List.length_eq_zero] at hl
    subst hl
    rfl
  | succ k ih =>
    intro l hl hb
    match l with
    | [] => rfl
    | [b1] =>
      have h1 : b1 < 256 := hb b1 (by simp)
      have e1 := b64DecTable_b64Char (b1 / 4) (by omega)
      have e2 := b64DecTable_b64Char (b1 % 4 * 16) (by omega)
      have hne1 := b64Char_ne_pad (b1 / 4) (by omega)
      have hne2 := b64Char_ne_pad (b1 % 4 * 16) (by omega)
      show a2bBase64 0 0 0 [b64Char (b1 / 4), b64Char (b1 % 4 * 16), '=', '='] = some [b1]
      simp only [a2bBase64, if_neg hne1, if_neg hne2, e1, e2]
      norm_num
      omega
    | [b1, b2] =>
      have h1 : b1 < 256 := hb b1 (by simp)
      have h2 : b2 < 256 := hb b2 (by simp)
      have e1 := b64DecTable_b64Char (b1 / 4) (by omega)
      have e2 := b64DecTable_b64Char (b1 % 4 * 16 + b2 / 16) (by omega)
      have e3 := b64DecTable_b64Char (b2 % 16 * 4) (by omega)
      have hne1 := b64Char_ne_pad (b1 / 4) (by omega)
      have hne2 := b64Char_ne_pad (b1 % 4 * 16 + b2 / 16) (by omega)
      have hne3 := b64Char_ne_pad (b2 % 16 * 4) (by omega)
      show a2bBase64 0 0 0 [b64Char (b1 / 4), b64Char (b1 % 4 * 16 + b2 / 16),
          b64Char (b2 % 16 * 4), '='] = some [b1, b2]
      simp only [a2bBase64, if_neg hne1, if_neg hne2, if_neg hne3, e1, e2, e3]
      norm_num
      omega
    | b1 :: b2 :: b3 :: rest =>
      have h1 : b1 < 256 := hb b1 (by simp)
      have h2 : b2 < 256 := hb b2 (by simp)
      have h3 : b3 < 256 := hb b3 (by simp)
      have e1 := b64DecTable_b64Char (b1 / 4) (by omega)
      have e2 := b64DecTable_b64Char (b1 % 4 * 16 + b2 / 16) (by omega)
      have e3 := b64DecTable_b64Char (b2 % 16 * 4 + b3 / 64) (by omega)
      have e4 := b64DecTable_b64Char (b3 % 64) (by omega)
      have hne1 := b64Char_ne_pad (b1 / 4) (by omega)
      have hne2 := b64Char_ne_pad (b1 % 4 * 16 + b2 / 16) (by omega)
      have hne3 := b64Char_ne_pad (b2 % 16 * 4 + b3 / 64) (by omega)
      have hne4 := b64Char_ne_pad (b3 % 64) (by omega)
      have hrec : a2bBase64 0 0 0 (b64encode rest) = some rest := by
        refine ih rest ?_ ?_
        · simp only [List.length_cons] at hl
          omega
        · intro x hx
          exact hb x (by simp [hx])
      show a2bBase64 0 0 0 (b64Char (b1 / 4) :: b64Char (b1 % 4 * 16 + b2 / 16) ::
          b64Char (b2 % 16 * 4 + b3 / 64) :: b64Char (b3 % 64) ::
          b64encode rest) = some (b1 :: b2 :: b3 :: rest)
      simp only [a2bBase64, if_neg hne1, if_neg hne2, if_neg hne3, if_neg hne4,
        e1, e2, e3, e4, hrec, Option.map_some']
      refine congrArg some ?_
      simp only [List.cons.injEq, and_true]
      omega

/-- Processing a run of data characters followed by the three padding
characters the endpoint appends: a quad position that would end at 1 is the
invalid length-1-mod-4 case, and the padding cannot complete the quad. -/
theorem a2b_data_only_mod1 : ∀ (s : List Char) (q l p : Nat),
    (∀ c ∈ s, (b64DecTable c).isSome = true) → (q + s.length) % 4 = 1 → q < 4 →
    a2bBase64 q l p (s ++ ['=', '=', '=']) = none := by
  intro s
  induction s with
  | nil =>
    intro q l p _ hm hq
    have hq1 : q = 1 := by
      simp only [List.length_nil, Nat.add_zero] at hm
      omega
    subst hq1
    simp [a2bBase64]
  | cons c cs ih =>
    intro q l p hall hm hq
    obtain ⟨v, hv⟩ : ∃ v, b64DecTable c = some v := by
      have hc := hall c (by simp)
      cases hx : b64DecTable c
      · rw [hx] at hc
        simp at hc
      · exact ⟨_, rfl⟩
    have hne : c ≠ '=' := by
      intro hceq
      rw [hceq, b64DecTable_pad] at hv
      exact Option.noConfusion hv
    have hall2 : ∀ x ∈ cs, (b64DecTable x).isSome = true := fun x hx => hall x (by simp [hx])
    have hmc : (q + cs.length + 1) % 4 = 1 := by
      simp only [List.length_cons] at hm
      omega
    interval_cases q
    · simp only [List.cons_append, a2bBase64, if_neg hne, hv, List.append_eq]
      exact ih 1 v 0 hall2 (by omega) (by omega)
    · simp only [List.cons_append, a2bBase64, if_neg hne, hv, List.append_eq]
      rw [ih 2 (v % 16) 0 hall2 (by omega) (by omega)]
      rfl
    · simp only [List.cons_append, a2bBase64, if_neg hne, hv, List.append_eq]
      rw [ih 3 (v % 4) 0 hall2 (by omega) (by omega)]
      rfl
    · simp only [List.cons_append, a2bBase64, if_neg hne, hv, List.append_eq]
      rw [ih 0 0 0 hall2 (by omega) (by omega)]
      rfl

/-- A pattern occurring literally between a prefix and a suffix is found by
the substring test. -/
theorem strContains_of_data (s pat : String) (pre suf : List Char)
    (h : s.data = pre ++ pat.data ++ suf) : strContains s pat = true := by
  rw [strContains, containsSubAux_iff, h]
  exact ⟨pre, suf, rfl⟩

theorem classify_download_not_found (en va : Bool) :
    classifyStr "500: Downloaded file not found" en va = (404, msgNotFound) := by
  cases en <;> cases va <;> decide

/-! ### Concrete pipeline environments used by counterexamples and witnesses -/

/-- A 2000 MB artifact at the extractor's predicted path. -/
def info413 : ExtractInfo := ⟨"abc", ⟨"clip-abc", ".mp4"⟩⟩

def denv413 : DEnv := ⟨.ok (some info413), .ok [], .ok (), 0⟩

def fs413 : FS := [(⟨"clip-abc", ".mp4"⟩, 2097152000)]

def penv413 : PostEnv := ⟨denv413, true, true, 1500, true, 200, "", "cid", false, true, true, true⟩

/-- An extraction whose predicted output path does not exist and whose glob
yields no match (the filesystem is empty). -/
def infoNF : ExtractInfo := ⟨"xyz", ⟨"clip-xyz", ".mp4"⟩⟩

def denvNF : DEnv := ⟨.ok (some infoNF), .ok [], .ok (), 0⟩

def penvNF : PostEnv := ⟨denvNF, true, true, 1500, true, 200, "", "cid", false, true, true, true⟩

/-- A `.webm` artifact whose re-encode fails (ffmpeg error "boom"). -/
def infoCV : ExtractInfo := ⟨"xyz", ⟨"clip-xyz", ".webm"⟩⟩

def denvCV : DEnv := ⟨.ok (some infoCV), .ok ["vp9"], .error "boom", 0⟩

def fsCV : FS := [(⟨"clip-xyz", ".webm"⟩, 1000)]

def penvCV : PostEnv := ⟨denvCV, true, true, 1500, true, 200, "", "cid", false, true, true, true⟩

/-- A successful h264 download whose pinning call answers HTTP 500. -/
def denvPin : DEnv := ⟨.ok (some info413), .ok ["h264"], .ok (), 0⟩

def fsPin : FS := [(⟨"clip-abc", ".mp4"⟩, 1000)]

def penvPin : PostEnv :=
  ⟨denvPin, true, true, 1500, true, 500, "upstream exploded", "cid", false, true, true, true⟩

/-- The same download with a successful pinning call. -/
def penvOkPin : PostEnv :=
  ⟨denvPin, true, true, 1500, true, 200, "", "cid", false, true, true, true⟩

/-! ### Claims -/

/-- C3: For every raw failure-message text, classification follows the fixed
precedence of the spec: an authentication / rate-limit / login /
private-access keyword gives `AuthOrRateLimited` (503) with the message
depending on whether credentials are enabled-but-invalid versus absent;
otherwise "unavailable" or "not found" gives `NotFound` (404); otherwise
"private" gives `Forbidden` (403); otherwise `Unknown` (500) with the
original message attached.  Stated as: the classifier embedded from the
code equals the classifier written from the spec's words. -/
theorem C3_classifier_follows_spec_precedence (s : String) (en va : Bool) :
    classifyStr s en va = classifySpec s en va := by
  simp only [classifyStr, classifySpec, authKeywords_any]
  split
  · split <;> rfl
  · rfl

/-- C10: every raw failure message containing the substring "private" is
classified `AuthOrRateLimited` (503), and the classifier's `Forbidden`
(403) branch is unreachable for all inputs, because "private" is also a
keyword of the first precedence group. -/
theorem C10_private_never_forbidden (s : String) (en va : Bool) :
    (strContains s "private" = true → (classifyStr s en va).1 = 503) ∧
    (classifyStr s en va).1 ≠ 403 := by
  constructor
  · intro h
    have h2 : strContains (pyLower s) "private" = true :=
      strContains_pyLower s "private" (by decide) h
    have hk : authKeywords.any (fun k => strContains (pyLower s) k) = true := by
      rw [authKeywords_any]
      simp [h2]
    simp only [classifyStr, hk]
    cases (en && !va) <;> simp
  · simp only [classifyStr]
    cases h1 : authKeywords.any (fun k => strContains (pyLower s) k)
    · have hp := strContains_private_of_any_eq_false (pyLower s) h1
      cases h2 : (strContains (pyLower s) "unavailable" || strContains (pyLower s) "not found") <;>
        simp [h1, h2, hp]
    · cases h4 : (en && !va) <;> simp [h1, h4]

/-- C1 counterexample: a 2000 MB artifact against the 1500 MB limit.  The
artifact is deleted and no pinning call occurs, but the caller receives
HTTP 500 with the generic "Download failed: ..." detail — not the distinct
413 ArtifactTooLarge error the claim asserts — because the function's own
`except Exception` handler catches the 413 and reclassifies it. -/
theorem C1_counterexample :
    downloadPost penv413 fs413 =
      ⟨.err (500, "Download failed: 413: File too large (2000.0 MB > 1500 MB)"), [],
        [Ev.started, Ev.failed], false⟩ ∧
    (downloadPost penv413 fs413).outcome ≠
      .err (413, "File too large (2000.0 MB > 1500 MB)") := by
  constructor
  · decide
  · decide

/-- C1 (amended): for every downloaded artifact whose size exceeds the
limit, the artifact file is deleted, no pinning call occurs, and the
internally raised 413 carries the measured size and the limit in its
detail; but the generic exception handler reclassifies it, so the error
reported to the caller is the classifier's output on the stringified 413 —
one of 503/404/403/500, never 413 itself. -/
theorem C1_too_large_deleted_no_pin (env : DEnv) (fs : FS) (maxMB : Nat)
    (en va : Bool) (info : ExtractInfo) (p : MPath)
    (hex : env.extractResult = .ok (some info))
    (hres : resolveArtifact info fs = .ok p)
    (hsize : fsSize fs p > maxMB * 1048576) :
    downloadVideo env fs maxMB en va =
      (.error (classifyStr ("413: " ++ tooLargeDetail (fsSize fs p) maxMB) en va),
        fsErase fs p) ∧
    fsExists (fsErase fs p) p = false ∧
    (classifyStr ("413: " ++ tooLargeDetail (fsSize fs p) maxMB) en va).1 ≠ 413 ∧
    strContains (tooLargeDetail (fsSize fs p) maxMB) (fmt1 (fsSize fs p)) = true ∧
    strContains (tooLargeDetail (fsSize fs p) maxMB) (toString maxMB) = true ∧
    (∀ (penv : PostEnv), penv.denv = env → penv.maxMB = maxMB →
      penv.cEnabled = en → penv.cValid = va → penv.startedLogOk = true →
      (downloadPost penv fs).pinCalled = false) := by
  have hbody : downloadVideoBody env fs maxMB =
      (.error (.http (413, tooLargeDetail (fsSize fs p) maxMB)), fsErase fs p) := by
    simp only [downloadVideoBody, hex, hres]
    rw [if_pos hsize]
  have hstr : strOfRaw (.http (413, tooLargeDetail (fsSize fs p) maxMB)) =
      "413: " ++ tooLargeDetail (fsSize fs p) maxMB := by
    simp only [strOfRaw]
    exact congrArg (fun x => x ++ tooLargeDetail (fsSize fs p) maxMB) (by decide)
  have hmain : downloadVideo env fs maxMB en va =
      (.error (classifyStr ("413: " ++ tooLargeDetail (fsSize fs p) maxMB) en va),
        fsErase fs p) := by
    simp only [downloadVideo, hbody, hstr]
  refine ⟨hmain, fsExists_fsErase fs p, ?_, ?_, ?_, ?_⟩
  · rcases classifyStr_status ("413: " ++ tooLargeDetail (fsSize fs p) maxMB) en va with
      h | h | h | h <;> simp [h]
  · refine strContains_of_data _ _ "File too large (".data
      (" MB > " ++ toString maxMB ++ " MB)").data ?_
    simp [tooLargeDetail]
  · refine strContains_of_data _ _ ("File too large (" ++ fmt1 (fsSize fs p) ++ " MB > ").data
      " MB)".data ?_
    simp [tooLargeDetail]
  · intro penv h1 h2 h3 h4 h5
    simp only [downloadPost, h5, h1, h2, h3, h4, hmain, Bool.not_true, Bool.false_eq_true,
      if_false]
    cases penv.failedLogOk <;> simp

/-- C1 witness: at the concrete 2000 MB / 1500 MB instance, the artifact no
longer exists afterwards and the reported status is not 413. -/
theorem C1_too_large_deleted_no_pin_witness :
    fsExists (fsErase fs413 ⟨"clip-abc", ".mp4"⟩) ⟨"clip-abc", ".mp4"⟩ = false ∧
      (classifyStr ("413: " ++ tooLargeDetail (fsSize fs413 ⟨"clip-abc", ".mp4"⟩) 1500)
        true true).1 ≠ 413 :=
  ⟨(C1_too_large_deleted_no_pin denv413 fs413 1500 true true info413 ⟨"clip-abc", ".mp4"⟩
      rfl (by decide) (by decide)).2.1,
    (C1_too_large_deleted_no_pin denv413 fs413 1500 true true info413 ⟨"clip-abc", ".mp4"⟩
      rfl (by decide) (by decide)).2.2.1⟩

/-- C2 counterexample: predicted output path missing and empty glob.  No
completed audit event and exactly one failed event are recorded, but the
error reported is the classifier's NotFound (404, generic content message),
not the internal ArtifactNotFound (500, "Downloaded file not found"): the
generic handler reclassifies it because its text contains "not found". -/
theorem C2_counterexample :
    downloadPost penvNF [] =
      ⟨.err (404, msgNotFound), [], [Ev.started, Ev.failed], false⟩ ∧
    (downloadPost penvNF []).outcome ≠ .err (500, "Downloaded file not found") := by
  constructor
  · decide
  · decide

/-- C2 (amended): when the predicted output path does not exist and the
glob over the working directory yields no match, the internal
ArtifactNotFound exception (500, "Downloaded file not found") is raised and
then reclassified, so the request fails with NotFound (404); no completed
audit event is recorded and exactly one failed audit event is recorded,
and no pinning call occurs. -/
theorem C2_artifact_not_found (penv : PostEnv) (fs : FS) (info : ExtractInfo)
    (hex : penv.denv.extractResult = .ok (some info))
    (hres : resolveArtifact info fs = .error (.http (500, "Downloaded file not found")))
    (hlog1 : penv.startedLogOk = true) (hlog3 : penv.failedLogOk = true) :
    (downloadPost penv fs).outcome = .err (404, msgNotFound) ∧
    (downloadPost penv fs).events = [Ev.started, Ev.failed] ∧
    (downloadPost penv fs).events.count Ev.failed = 1 ∧
    Ev.completed ∉ (downloadPost penv fs).events ∧
    (downloadPost penv fs).pinCalled = false := by
  have hbody : downloadVideoBody penv.denv fs penv.maxMB =
      (.error (.http (500, "Downloaded file not found")), fs) := by
    simp only [downloadVideoBody, hex, hres]
  have hstr : strOfRaw (.http (500, "Downloaded file not found")) =
      "500: Downloaded file not found" := by decide
  have hdv : downloadVideo penv.denv fs penv.maxMB penv.cEnabled penv.cValid =
      (.error (404, msgNotFound), fs) := by
    simp only [downloadVideo, hbody, hstr, classify_download_not_found]
  have hpost : downloadPost penv fs =
      ⟨.err (404, msgNotFound), fs, [Ev.started, Ev.failed], false⟩ := by
    simp only [downloadPost, hlog1, hdv, hlog3, Bool.not_true, Bool.false_eq_true, if_false,
      if_true]
    rfl
  rw [hpost]
  refine ⟨rfl, rfl, ?_, ?_, rfl⟩
  · show List.count Ev.failed [Ev.started, Ev.failed] = 1
    decide
  · show Ev.completed ∉ [Ev.started, Ev.failed]
    decide

/-- C2 witness: the concrete empty-filesystem instance. -/
theorem C2_artifact_not_found_witness :
    (downloadPost penvNF []).outcome = .err (404, msgNotFound) ∧
      (downloadPost penvNF []).events.count Ev.failed = 1 :=
  ⟨(C2_artifact_not_found penvNF [] infoNF rfl (by decide) rfl rfl).1,
    (C2_artifact_not_found penvNF [] infoNF rfl (by decide) rfl rfl).2.2.1⟩

/-- C5 counterexample: a conversion failure leaves the artifact on disk
although retention is off.  `_download_video` raises before the handler's
local `file_path` is assigned, so the finally-block's unlink hits an
unbound variable, the error is swallowed, and the `.webm` artifact
survives the request — refuting the claim that the handler removes the
local artifact on every request. -/
theorem C5_counterexample :
    downloadPost penvCV fsCV =
      ⟨.err (500, "Download failed: 500: Video conversion failed: boom"), fsCV,
        [Ev.started, Ev.failed], false⟩ ∧
    fsExists (downloadPost penvCV fsCV).fs ⟨"clip-xyz", ".webm"⟩ = true ∧
    penvCV.keepFiles = false := by
  refine ⟨by decide, by decide, rfl⟩

/-- C5 (amended): the guaranteed cleanup holds on every request on which
acquisition and conversion succeeded (the handler's artifact variable is
assigned): in particular, when the pinning call fails with a non-success
status the pipeline reports PinningFailed (502) carrying the upstream body
and the local artifact is still removed, and the cleanup also executes when
the failure-audit logging call itself raises.  When `_download_video` fails
after materializing an artifact (for example a conversion failure), the
cleanup references an unassigned variable, the resulting error is
swallowed, and the artifact is not removed. -/
theorem C5_cleanup_when_artifact_assigned (penv : PostEnv) (fs fs1 : FS) (fp : MPath)
    (hdv : downloadVideo penv.denv fs penv.maxMB penv.cEnabled penv.cValid = (.ok fp, fs1))
    (hkeep : penv.keepFiles = false)
    (hlog1 : penv.startedLogOk = true) :
    ((downloadPost penv fs).fs = fsErase fs1 fp ∧
      fsExists (downloadPost penv fs).fs fp = false) ∧
    (penv.jwtConfigured = true → penv.pinStatus ≥ 400 → penv.failedLogOk = true →
      (downloadPost penv fs).outcome = .err (502, "Pinata error: " ++ penv.pinBody)) := by
  have hfs : (downloadPost penv fs).fs = fsErase fs1 fp := by
    simp only [downloadPost, hlog1, hdv, Bool.not_true, Bool.false_eq_true, if_false]
    cases hp : pinToPinata penv with
    | error e =>
      cases hl : penv.failedLogOk <;> simp [hkeep]
    | ok cid =>
      cases hc : penv.completedLogOk <;> cases hl : penv.failedLogOk <;> simp [hkeep]
  refine ⟨⟨hfs, ?_⟩, ?_⟩
  · rw [hfs]
    exact fsExists_fsErase fs1 fp
  · intro hjwt hpin hlog3
    have hpinata : pinToPinata penv = .error (502, "Pinata error: " ++ penv.pinBody) := by
      simp [pinToPinata, hjwt, hpin]
    simp only [downloadPost, hlog1, hdv, hpinata, hlog3, Bool.not_true, Bool.false_eq_true,
      if_false, if_true]

/-- C5 witness: the concrete pin-failure instance — PinningFailed with the
upstream body, artifact removed — and a successful-pin instance whose
artifact is removed as well. -/
theorem C5_cleanup_when_artifact_assigned_witness :
    ((downloadPost penvPin fsPin).fs = fsErase fsPin ⟨"clip-abc", ".mp4"⟩ ∧
      fsExists (downloadPost penvPin fsPin).fs ⟨"clip-abc", ".mp4"⟩ = false) ∧
    (downloadPost penvPin fsPin).outcome = .err (502, "Pinata error: " ++ penvPin.pinBody) ∧
    (downloadPost penvOkPin fsPin).fs = fsErase fsPin ⟨"clip-abc", ".mp4"⟩ :=
  ⟨(C5_cleanup_when_artifact_assigned penvPin fsPin fsPin ⟨"clip-abc", ".mp4"⟩
      (by decide) rfl rfl).1,
    (C5_cleanup_when_artifact_assigned penvPin fsPin fsPin ⟨"clip-abc", ".mp4"⟩
      (by decide) rfl rfl).2 rfl (by decide) rfl,
    (C5_cleanup_when_artifact_assigned penvOkPin fsPin fsPin ⟨"clip-abc", ".mp4"⟩
      (by decide) rfl rfl).1.1⟩

/-- C4: for video artifacts, a probed primary-stream codec in the
mobile-incompatible set, or a container extension other than `.mp4`, makes
conversion run with a `.mp4` output; a codec in the compatible set with the
container already `.mp4` is an idempotent no-op; a probe failure or an
unrecognized codec defaults to "conversion required". -/
theorem C4_conversion_decision (env : DEnv) (p : MPath) (fs : FS) :
    (∀ c rest, env.probe = .ok (c :: rest) →
      incompatibleCodecs.contains (pyLower c) = true → env.ffmpeg = .ok () →
      convRan (convertMedia env p MediaKind.video fs) = true ∧
        (convOut (convertMedia env p MediaKind.video fs)).map MPath.ext = some ".mp4") ∧
    ((pyLower p.ext != ".mp4") = true → env.ffmpeg = .ok () →
      convRan (convertMedia env p MediaKind.video fs) = true ∧
        (convOut (convertMedia env p MediaKind.video fs)).map MPath.ext = some ".mp4") ∧
    (∀ c rest, env.probe = .ok (c :: rest) →
      compatibleCodecs.contains (pyLower c) = true → pyLower p.ext = ".mp4" →
      convertMedia env p MediaKind.video fs = (.ok (p, false), fs)) ∧
    (env.probe = .error () → needsH264Conversion env.probe = true) ∧
    (∀ c, env.probe = .ok [c] → incompatibleCodecs.contains (pyLower c) = false →
      compatibleCodecs.contains (pyLower c) = false →
      needsH264Conversion env.probe = true) := by
  refine ⟨?_, ?_, ?_, ?_, ?_⟩
  · intro c rest hpr hbad hff
    have hmem : pyLower c ∈ incompatibleCodecs := by simpa using hbad
    have hneeds : needsH264Conversion env.probe = true := by
      simp only [needsH264Conversion, hpr, needsLoop]
      simp [hmem]
    by_cases hs : (pyLower p.ext != ".mp4") = true
    · simp [convertMedia, hs, hneeds, hff, convRan, convOut, MPath.withExt]
    · simp only [Bool.not_eq_true] at hs
      simp [convertMedia, hs, hneeds, hff, convRan, convOut]
  · intro hs hff
    by_cases hs2 : (pyLower p.ext != ".mp4") = true
    · simp [convertMedia, hs2, hff, convRan, convOut, MPath.withExt]
    · exact absurd hs hs2
  · intro c rest hpr hgood hmp4
    have hbad := compat_not_incompat (pyLower c) hgood
    have hmemg : pyLower c ∈ compatibleCodecs := by simpa using hgood
    have hmemb : pyLower c ∉ incompatibleCodecs := by simpa using hbad
    have hneeds : needsH264Conversion env.probe = false := by
      simp only [needsH264Conversion, hpr, needsLoop]
      simp [hmemb]
      exact fun hn => absurd hmemg hn
    have hs : (pyLower p.ext != ".mp4") = false := by
      simp [hmp4]
    simp [convertMedia, hs, hneeds]
  · intro hpr
    simp [needsH264Conversion, hpr]
  · intro c hpr hbad hgood
    have hmemb : pyLower c ∉ incompatibleCodecs := by simpa using hbad
    have hmemg : pyLower c ∉ compatibleCodecs := by simpa using hgood
    simp only [needsH264Conversion, hpr, needsLoop]
    simp [hmemb, hmemg]

/-- C4 witness: a `.mp4` artifact whose probed codec is vp9 is converted,
and the output container is `.mp4`. -/
theorem C4_conversion_decision_witness :
    convRan (convertMedia ⟨.ok none, .ok ["vp9"], .ok (), 5⟩ ⟨"clip", ".mp4"⟩ MediaKind.video []) = true ∧
      (convOut (convertMedia ⟨.ok none, .ok ["vp9"], .ok (), 5⟩ ⟨"clip", ".mp4"⟩ MediaKind.video [])).map MPath.ext = some ".mp4" :=
  (C4_conversion_decision ⟨.ok none, .ok ["vp9"], .ok (), 5⟩ ⟨"clip", ".mp4"⟩ []).1
    "vp9" [] rfl (by decide) rfl

/-- C7: the credential validate() operation never raises past the store
boundary (the model is a total function into a plain pair): on a successful
probe with a truthy result it sets validity to true and records the current
time; on every failure — disabled store, missing or placeholder credential
file, probe exception, falsy probe result — it sets validity to false and
returns false. -/
theorem C7_validate_absorbs_failures (enabled : Bool) (cf : Option String)
    (probe : Except Unit Bool) (now : Nat) (st : CMState) :
    (enabled = true → cookiesExist cf = true → probe = .ok true →
      validateCookies enabled cf probe now st = (⟨true, some now⟩, true)) ∧
    (enabled = false →
      (validateCookies enabled cf probe now st).1.cookiesValid = false ∧
        (validateCookies enabled cf probe now st).2 = false) ∧
    (cookiesExist cf = false →
      (validateCookies enabled cf probe now st).1.cookiesValid = false ∧
        (validateCookies enabled cf probe now st).2 = false) ∧
    (probe = .error () →
      (validateCookies enabled cf probe now st).1.cookiesValid = false ∧
        (validateCookies enabled cf probe now st).2 = false) ∧
    (probe = .ok false →
      (validateCookies enabled cf probe now st).1.cookiesValid = false ∧
        (validateCookies enabled cf probe now st).2 = false) := by
  refine ⟨?_, ?_, ?_, ?_, ?_⟩
  · intro h1 h2 h3
    simp [validateCookies, h1, h2, h3]
  · intro h
    simp [validateCookies, h]
  · intro h
    simp [validateCookies, h]
  · intro h
    by_cases hc : (!enabled || !cookiesExist cf) = true
    · simp [validateCookies, hc]
    · simp only [Bool.not_eq_true] at hc
      simp [validateCookies, hc, h]
  · intro h
    by_cases hc : (!enabled || !cookiesExist cf) = true
    · simp [validateCookies, hc]
    · simp only [Bool.not_eq_true] at hc
      simp [validateCookies, hc, h]

/-- C7 witness: with the store enabled, a real cookie file and a successful
probe at time 42, validity becomes true and the time is recorded; with a
probe exception, validity becomes false and false is returned. -/
theorem C7_validate_absorbs_failures_witness :
    validateCookies true (some "sessionid=abc") (.ok true) 42 ⟨false, none⟩ =
      (⟨true, some 42⟩, true) ∧
    (validateCookies true (some "sessionid=abc") (.error ()) 42 ⟨true, some 7⟩).2 = false :=
  ⟨(C7_validate_absorbs_failures true (some "sessionid=abc") (.ok true) 42 ⟨false, none⟩).1
      rfl (by decide) rfl,
    ((C7_validate_absorbs_failures true (some "sessionid=abc") (.error ()) 42 ⟨true, some 7⟩).2.2.2.1
      rfl).2⟩

/-- C8: the options record carries the credential artifact reference
(cookiefile) precisely when credentials are enabled, a non-placeholder
credential file exists, and validity holds after the opportunistic
revalidation performed when one is due; when credentials are enabled but
the file is absent, a placeholder file with embedded usage instructions is
written and the options carry no credential reference. -/
theorem C8_options_cookiefile_iff (enabled : Bool) (cf : Option String)
    (probe : Except Unit Bool) (now intrvl : Nat) (st : CMState) :
    ((getDownloadOptions enabled cf probe now intrvl st).2.2.1.cookiefile.isSome = true ↔
      enabled = true ∧ cookiesExist cf = true ∧
        (getDownloadOptions enabled cf probe now intrvl st).1.cookiesValid = true) ∧
    (enabled = true → cookiesExist cf = false →
      (getDownloadOptions enabled cf probe now intrvl st).2.1 = some sampleCookiesContent ∧
        (getDownloadOptions enabled cf probe now intrvl st).2.2.1.cookiefile = none ∧
        strContains sampleCookiesContent "your_session_id_here" = true ∧
        cookiesExist (some sampleCookiesContent) = false) := by
  constructor
  · cases hen : enabled <;> cases hex : cookiesExist cf <;>
      simp only [getDownloadOptions, hen, hex, Bool.true_and, Bool.false_and, Bool.and_true,
        Bool.and_false, Bool.not_true, Bool.not_false, if_true, if_false]
    · simp [baseOpts]
    · simp [baseOpts]
    · simp [baseOpts]
    · cases hsv : shouldValidate st now intrvl
      · cases hv : st.cookiesValid <;> simp [hv, baseOpts]
      · cases hv : (validateCookies true cf probe now st).1.cookiesValid <;>
          simp [hv, baseOpts]
  · intro h1 h2
    refine ⟨?_, ?_, by decide, by decide⟩
    · simp [getDownloadOptions, h1, h2]
    · simp [getDownloadOptions, h1, h2, baseOpts]

/-- C8 witness: enabled with no cookie file present, the sample placeholder
is synthesized and no cookiefile option is attached. -/
theorem C8_options_cookiefile_iff_witness :
    (getDownloadOptions true none (.ok true) 5 3600 ⟨false, none⟩).2.1 =
      some sampleCookiesContent ∧
    (getDownloadOptions true none (.ok true) 5 3600 ⟨false, none⟩).2.2.1.cookiefile = none :=
  ⟨((C8_options_cookiefile_iff true none (.ok true) 5 3600 ⟨false, none⟩).2 rfl rfl).1,
    ((C8_options_cookiefile_iff true none (.ok true) 5 3600 ⟨false, none⟩).2 rfl rfl).2.1⟩

/-- C9 counterexample: with cookies enabled, a real cookie file, the default
3600-second interval and a fresh state, two consecutive requests at times 0
and 10 whose validation probes both fail each execute a probe: two probe
executions lie 10 < 3600 seconds apart, refuting the claim that any two
probe executions are at least the configured interval apart.  The failed
probe does not advance the last-validated timestamp, so the next request
probes again immediately. -/
theorem C9_counterexample :
    traceProbes true (some "sessionid=abc") 3600 ⟨false, none⟩ [(0, false), (10, false)] =
      [(0, false), (10, false)] ∧ 10 - 0 < 3600 := by
  decide

/-- C9 (amended): under any request sequence without forced validation,
two consecutive probe executions of which the earlier one succeeded are
more than `COOKIE_VALIDATION_INTERVAL` seconds apart; a failed probe leaves
the last-validated timestamp unchanged, so only successful validations
throttle subsequent probes. -/
theorem C9_validations_gap_after_success (enabled : Bool) (cf : Option String)
    (intrvl : Nat) :
    (∀ (evs : List (Nat × Bool)) (st : CMState) (pre : List (Nat × Bool))
        (t1 t2 : Nat) (b : Bool) (rest : List (Nat × Bool)),
      traceProbes enabled cf intrvl st evs = pre ++ (t1, true) :: (t2, b) :: rest →
      intrvl < t2 - t1) ∧
    (∀ (st : CMState) (ev : Nat × Bool),
      (traceStep enabled cf intrvl st ev).2 = true → ev.2 = false →
      (traceStep enabled cf intrvl st ev).1.lastValidation = st.lastValidation) :=
  ⟨traceProbes_adjacent_gap enabled cf intrvl,
    fun st ev h hf => traceStep_fail_keeps_last enabled cf intrvl st ev h hf⟩

/-- C9 witness: a successful probe at time 0 followed by the next probe at
time 4000 respects the 3600-second interval, and a failed probe from a
fresh state leaves the timestamp unchanged. -/
theorem C9_validations_gap_after_success_witness :
    (3600 : Nat) < 4000 - 0 ∧
      (traceStep true (some "sessionid=abc") 3600 ⟨false, none⟩ (7, false)).1.lastValidation =
        (⟨false, none⟩ : CMState).lastValidation :=
  ⟨(C9_validations_gap_after_success true (some "sessionid=abc") 3600).1
      [(0, true), (4000, true)] ⟨false, none⟩ [] 0 4000 true [] (by decide),
    (C9_validations_gap_after_success true (some "sessionid=abc") 3600).2
      ⟨false, none⟩ (7, false) (by decide) rfl⟩

/-- C6 counterexample: the slug "aGk.a" has length 5, so 5 mod 4 = 1, yet
it is not rejected: the decoder discards the non-alphabet "." before the
padding check, leaving the four data characters "aGka", and the endpoint
decodes the slug successfully to the bytes 104, 105, 26. -/
theorem C6_counterexample :
    "aGk.a".data.length % 4 = 1 ∧
    b64urlDecode "aGk.a".data = some [104, 105, 26] ∧
    slugDecode "aGk.a".data = .ok [104, 105, 26] := by
  refine ⟨by decide, by decide, by decide⟩

/-- C6 (amended): decoding the base64url encoding of any URL byte string
yields it back, and every slug consisting solely of base64 data characters
whose length is 1 modulo 4 is rejected as malformed (HTTP 400); slugs
containing non-alphabet characters may instead decode successfully, because
the decoder discards such characters before the padding check. -/
theorem C6_b64url_roundtrip_and_reject :
    (∀ (l : List Nat), (∀ b ∈ l, b < 256) → b64urlDecode (b64encode l) = some l) ∧
    (∀ (s : List Char), (∀ c ∈ s, (b64DecTable c).isSome = true) → s.length % 4 = 1 →
      slugDecode s = .error (400, "Malformed base64url slug")) := by
  constructor
  · intro l hb
    have hlen : (b64encode l).length % 4 = 0 := b64encode_length_mod l.length l le_rfl
    simp only [b64urlDecode, hlen, if_pos rfl]
    exact a2b_b64encode l.length l le_rfl hb
  · intro s hall hm
    have hdec : b64urlDecode s = none := by
      simp only [b64urlDecode, hm]
      norm_num
      exact a2b_data_only_mod1 s 0 0 0 hall (by omega) (by omega)
    simp [slugDecode, hdec]

/-- C6 witness: the bytes of "hi" survive the round trip, and the
one-character slug "A" is rejected with the malformed-slug error. -/
theorem C6_b64url_roundtrip_and_reject_witness :
    b64urlDecode (b64encode [104, 105]) = some [104, 105] ∧
      slugDecode ['A'] = .error (400, "Malformed base64url slug") :=
  ⟨C6_b64url_roundtrip_and_reject.1 [104, 105] (by decide),
    C6_b64url_roundtrip_and_reject.2 ['A'] (by decide) (by decide)⟩

/-- C10 witness: a concrete private-content failure message is classified
503, not 403. -/
theorem C10_private_never_forbidden_witness :
    (classifyStr "ERROR: This account is private" true true).1 = 503 :=
  (C10_private_never_forbidden "ERROR: This account is private" true true).1 (by decide)

end YtIpfs
